import Mathlib

/-!
Shallow embedding of the client-side recording session and chunk-submission
pipeline implemented in `src/frontend/src/components/live-speech-to-text.tsx`
(the active `EnhancedLiveTranscription` component).

Modelling conventions:
* a JS `Blob` is a byte list (`List Nat`); `blob.size` is the list length and
  `new Blob(parts)` is concatenation of the parts in order;
* the React `useState` fields (`isRecording`, `isProcessing`, `transcription`,
  `error`, `audioChunks`, `activeTab`) and the `useRef` cells
  (`mediaRecorderRef`, `streamRef`, `recordedChunksRef`) are collected into one
  `ComponentState` record; every event handler and user-triggered operation is
  a pure state transformer;
* outcomes of external platform primitives (`getUserMedia`,
  `MediaRecorder.isTypeSupported`, `fetch`, `response.json()`, `JSON.parse`)
  are passed as explicit arguments, since they are external collaborators of
  the component;
* numeric JSON fields that the component only forwards to the display
  (durations, timings, amplitudes) are modelled as `Nat`, and `alert` popups
  are modelled as structured values, because their exact float formatting is
  presentation glue with no decision logic.
-/

namespace LiveSpeechToText

/-- One audio chunk as exposed to the presentation layer
(source `interface AudioChunk`): binary payload, capture timestamp,
sequence index and byte size. -/
structure AudioChunk where
  data : List Nat
  timestamp : Nat
  index : Nat
  size : Nat
  deriving Repr, DecidableEq

/-- Source `interface Participant`. -/
structure Participant where
  name : String
  role : String
  attendance_status : String
  deriving Repr, DecidableEq

/-- Source `interface ActionItem`. -/
structure ActionItem where
  id : Nat
  task : String
  assigned_to : String
  deadline : String
  priority : String
  status : String
  category : String
  deriving Repr, DecidableEq

/-- Source `interface Decision`. -/
structure Decision where
  id : Nat
  decision : String
  rationale : String
  impact : String
  responsible_party : String
  timeline : String
  deriving Repr, DecidableEq

/-- Source `interface RiskBlocker`. -/
structure RiskBlocker where
  issue : String
  severity : String
  owner : String
  deriving Repr, DecidableEq

/-- Nested `meeting_info` object of the meeting record. -/
structure MeetingInfo where
  date : String
  time : String
  meeting_type : String
  deriving Repr, DecidableEq

/-- Nested `attendance` object of the meeting record. -/
structure Attendance where
  participants : List Participant
  total_participants : Nat
  deriving Repr, DecidableEq

/-- Nested `summary` object of the meeting record. -/
structure Summary where
  overview : String
  detailed : String
  key_topics : List String
  deriving Repr, DecidableEq

/-- Nested `follow_up` object of the meeting record. -/
structure FollowUp where
  next_meeting : String
  pending_items : List String
  required_approvals : List String
  deriving Repr, DecidableEq

/-- The `mom` (minutes-of-meeting) object of
`interface EnhancedTranscriptionResult`. -/
structure Mom where
  meeting_info : MeetingInfo
  attendance : Attendance
  summary : Summary
  action_items : List ActionItem
  decisions : List Decision
  follow_up : FollowUp
  risks_and_blockers : List RiskBlocker
  deriving Repr, DecidableEq

/-- Optional `processing_info` object; the float timings are modelled as
`Nat` since the component only displays them. -/
structure ProcessingInfo where
  total_files : Nat
  successful_files : Nat
  processing_time : Nat
  transcription_time : Nat
  deriving Repr, DecidableEq

/-- Source `interface EnhancedTranscriptionResult`: the parsed JSON body of a
successful chunk-submission response. -/
structure EnhancedTranscriptionResult where
  transcript : String
  mom : Mom
  processing_info : Option ProcessingInfo
  deriving Repr, DecidableEq

/-- Nested `audio_info` object of `interface SingleTranscriptionResult`;
float diagnostics are modelled as `Nat`. -/
structure AudioInfo where
  duration : Nat
  sample_rate : Nat
  samples : Nat
  max_amplitude : Nat
  deriving Repr, DecidableEq

/-- Source `interface SingleTranscriptionResult`: the parsed JSON body of a
successful single-chunk diagnostic response. -/
structure SingleTranscriptionResult where
  transcript : String
  audio_info : AudioInfo
  deriving Repr, DecidableEq

/-- Platform state of a `MediaRecorder` handle: `start()` throws unless the
recorder is inactive, which is how a second start is rejected. -/
inductive RecState where
  | inactive
  | recording
  deriving Repr, DecidableEq

/-- The `MediaRecorder` handle held in `mediaRecorderRef`: the negotiated
MIME type (the `selectedMimeType` closure variable) and the platform
recording state. -/
structure MediaRecorderHandle where
  mimeType : String
  recState : RecState
  deriving Repr, DecidableEq

/-- The whole component state: React `useState` fields first, then the
`useRef` cells (`mediaRecorderRef`, `streamRef` as a presence flag,
`recordedChunksRef` as the list of raw recorded segments). -/
structure ComponentState where
  isRecording : Bool
  isProcessing : Bool
  transcription : Option EnhancedTranscriptionResult
  error : Option String
  audioChunks : List AudioChunk
  activeTab : String
  mediaRecorder : Option MediaRecorderHandle
  stream : Bool
  recordedChunks : List (List Nat)
  deriving Repr, DecidableEq

/-- The component's initial state: all `useState` initializers and empty
refs. -/
def initialState : ComponentState :=
  { isRecording := false
    isProcessing := false
    transcription := none
    error := none
    audioChunks := []
    activeTab := "transcript"
    mediaRecorder := none
    stream := false
    recordedChunks := [] }

/-- The ordered MIME-type preference list of `initializeRecorder`. -/
def mimeTypes : List String :=
  ["audio/wav", "audio/webm;codecs=opus", "audio/webm", "audio/ogg;codecs=opus"]

/-- The `mediaRecorder.ondataavailable` handler: appends the emitted segment
to `recordedChunksRef` when it is non-empty; it never touches the exposed
`audioChunks` list. -/
def ondataavailable (s : ComponentState) (data : List Nat) : ComponentState :=
  if 0 < data.length then
    { s with recordedChunks := s.recordedChunks ++ [data] }
  else s

/-- The `mediaRecorder.onstart` handler: marks recording, clears the exposed
chunk list, the internal segment buffer and any error. -/
def onstart (s : ComponentState) : ComponentState :=
  { s with isRecording := true
           audioChunks := []
           recordedChunks := []
           error := none }

/-- The `mediaRecorder.onstop` handler (`now` is `Date.now()`): concatenates
all recorded segments into one complete blob and publishes it as the single
chunk of index 0, or reports that no audio data was recorded. -/
def onstop (s : ComponentState) (now : Nat) : ComponentState :=
  let s1 := { s with isRecording := false }
  if s1.recordedChunks.length > 0 then
    let completeBlob := s1.recordedChunks.flatten
    let chunk : AudioChunk :=
      { data := completeBlob, timestamp := now, index := 0, size := completeBlob.length }
    { s1 with audioChunks := [chunk] }
  else
    let msg := "No audio data was recorded. Please check microphone permissions."
    { s1 with error := some msg }

/-- The `mediaRecorder.onerror` handler. -/
def onerror (s : ComponentState) : ComponentState :=
  { s with error := some "Recording error occurred" }

/-- `initializeRecorder`: acquires the microphone stream (`gum` is the
`getUserMedia` outcome), negotiates the first supported MIME type
(`supported` is the platform's `MediaRecorder.isTypeSupported`), and installs
a fresh inactive recorder.  Returns the new state and the `true`/`false`
result the source returns. -/
def initializeRecorder (s : ComponentState) (gum : Except String Unit)
    (supported : String → Bool) : ComponentState × Bool :=
  match gum with
  | .error msg =>
      ({ s with error := some ("Failed to initialize recorder: " ++ msg) }, false)
  | .ok _ =>
      let s1 := { s with stream := true }
      match mimeTypes.find? supported with
      | none =>
          let msg := "Failed to initialize recorder: No supported audio MIME type found"
          ({ s1 with error := some msg }, false)
      | some m =>
          let recorder : MediaRecorderHandle := { mimeType := m, recState := .inactive }
          ({ s1 with mediaRecorder := some recorder }, true)

/-- `startRecording`: initializes the recorder if absent, then calls the
platform `start(1000)`.  The platform throws when the recorder is not
inactive (there is no state-machine guard in the operation itself); the
catch block then sets the failed-to-start error. -/
def startRecording (s : ComponentState) (gum : Except String Unit)
    (supported : String → Bool) : ComponentState :=
  let init : ComponentState × Bool :=
    match s.mediaRecorder with
    | none => initializeRecorder s gum supported
    | some _ => (s, true)
  if init.2 then
    match init.1.mediaRecorder with
    | none => init.1
    | some r =>
        match r.recState with
        | .inactive =>
            { init.1 with mediaRecorder := some { r with recState := .recording } }
        | .recording =>
            { init.1 with error := some "Failed to start recording" }
  else init.1

/-- `stopRecording`: asks the platform recorder to stop when one exists and
the component believes it is recording; the resulting `dataavailable`/`stop`
callbacks are separate events. -/
def stopRecording (s : ComponentState) : ComponentState :=
  match s.mediaRecorder with
  | some r =>
      if s.isRecording then
        { s with mediaRecorder := some { r with recState := .inactive } }
      else s
  | none => s

/-- An outbound HTTP request issued by the component: target endpoint, bytes
of the attached blob, and the attachment filename. -/
structure OutboundRequest where
  endpoint : String
  payload : List Nat
  filename : String
  deriving Repr, DecidableEq

/-- The JS object produced by `JSON.parse` on an error body, as far as the
component reads it: an optional `detail` string field. -/
structure ErrorPayload where
  detail : Option String
  deriving Repr, DecidableEq

/-- Outcome of the `fetch` to the chunk-submission endpoint, as observed by
`processAudioChunks`: the network call rejects, the response is non-2xx
(with its status, raw body text, and the result of `JSON.parse` on that
text), the success body fails to parse as JSON, or it parses into a result. -/
inductive FetchOutcome where
  | networkError (msg : String)
  | httpError (status : Nat) (errorText : String) (parsed : Option ErrorPayload)
  | jsonError (msg : String)
  | success (result : EnhancedTranscriptionResult)

/-- `processAudioChunks` (the `submit` operation): guards only on an empty
chunk list, validates the first chunk's size, issues the single multipart
request, and maps the outcome onto `error`/`transcription`.  Returns the new
state and the list of network calls issued. -/
def processAudioChunks (s : ComponentState) (outcome : FetchOutcome) :
    ComponentState × List OutboundRequest :=
  match s.audioChunks with
  | [] => ({ s with error := some "No audio chunks to process" }, [])
  | chunk :: _ =>
      let s1 := { s with isProcessing := true, error := none }
      if chunk.size < 1000 then
        let msg := "Processing failed: Audio file too small. Please record for longer duration."
        ({ s1 with isProcessing := false, error := some msg }, [])
      else
        let req : OutboundRequest :=
          { endpoint := "/live-speech-to-text/live-chunks"
            payload := chunk.data
            filename := "complete_recording.webm" }
        let s2 :=
          match outcome with
          | .networkError msg =>
              { s1 with error := some ("Processing failed: " ++ msg) }
          | .jsonError msg =>
              { s1 with error := some ("Processing failed: " ++ msg) }
          | .httpError status errorText parsed =>
              let detail :=
                match parsed with
                | some errorData =>
                    match errorData.detail with
                    | some d => if d = "" then "Request failed" else d
                    | none => "Request failed"
                | none => if errorText = "" then "Unknown error" else errorText
              let msg := "Processing failed: HTTP " ++ toString status ++ ": " ++ detail
              { s1 with error := some msg }
          | .success result =>
              if result.transcript = "" ∨ result.transcript.trim = "" then
                let msg := "No speech was detected in the recording. Please try recording again and speak clearly."
                { s1 with error := some msg }
              else
                { s1 with transcription := some result, activeTab := "transcript" }
        ({ s2 with isProcessing := false }, [req])

/-- Outcome of the `fetch` to the single-chunk diagnostic endpoint, as
observed by `testSingleChunk`: on a non-2xx response the component reads
`response.json()` and falls back to a default `detail` when that parse
rejects. -/
inductive DiagFetchOutcome where
  | networkError (msg : String)
  | httpError (status : Nat) (parsed : Option ErrorPayload)
  | jsonError (msg : String)
  | success (result : SingleTranscriptionResult)

/-- A user-visible `alert` popup raised by `testSingleChunk`, modelled
structurally (its float formatting is presentation only). -/
inductive Alert where
  | chunkResult (chunkIndex : Nat) (transcript : String) (duration : Nat)
  | chunkFailure (chunkIndex : Nat) (message : String)
  deriving Repr, DecidableEq

/-- Result of one `testSingleChunk` call: the component state afterwards,
the network calls issued, and the alert shown. -/
structure DiagnosticOutput where
  state : ComponentState
  requests : List OutboundRequest
  alert : Option Alert

/-- `testSingleChunk`: the side-channel diagnostic submission of one chunk.
It reads `audioChunks` and reports through `alert` only; it contains no state
update whatsoever. -/
def testSingleChunk (s : ComponentState) (chunkIndex : Nat)
    (outcome : DiagFetchOutcome) : DiagnosticOutput :=
  match s.audioChunks[chunkIndex]? with
  | none => { state := s, requests := [], alert := none }
  | some chunk =>
      let req : OutboundRequest :=
        { endpoint := "/live-speech-to-text/live-single"
          payload := chunk.data
          filename := "test_chunk_" ++ toString chunk.index ++ ".webm" }
      match outcome with
      | .networkError msg =>
          { state := s, requests := [req],
            alert := some (.chunkFailure chunkIndex msg) }
      | .httpError status parsed =>
          let detail :=
            match parsed with
            | some errorData =>
                match errorData.detail with
                | some d => d
                | none => "undefined"
            | none => "Unknown error"
          { state := s, requests := [req],
            alert := some (.chunkFailure chunkIndex
              ("HTTP " ++ toString status ++ ": " ++ detail)) }
      | .jsonError msg =>
          { state := s, requests := [req],
            alert := some (.chunkFailure chunkIndex msg) }
      | .success result =>
          { state := s, requests := [req],
            alert := some (.chunkResult chunkIndex result.transcript
              result.audio_info.duration) }

/-- `cleanup` (the `reset` operation): releases the stream and the recorder,
clears the internal segment buffer, the exposed chunk list, the result and
the error, and returns the active tab to its initial value.  Note that it
does not touch `isProcessing`. -/
def cleanup (s : ComponentState) : ComponentState :=
  { s with stream := false
           mediaRecorder := none
           recordedChunks := []
           isRecording := false
           audioChunks := []
           transcription := none
           error := none
           activeTab := "transcript" }

/-- The session phases named by the specification. -/
inductive Phase where
  | Idle
  | Recording
  | Stopped
  | Submitting
  | Completed
  | Failed
  deriving Repr, DecidableEq

/-- The session phase exposed to the presentation layer, derived from the
component flags: an in-flight submission is Submitting, a present error
message means Failed, a stored result means Completed, and a frozen non-empty
chunk list with none of those means Stopped. -/
def phase (s : ComponentState) : Phase :=
  if s.isRecording then .Recording
  else if s.isProcessing then .Submitting
  else if s.error.isSome then .Failed
  else if s.transcription.isSome then .Completed
  else if s.audioChunks.isEmpty then .Idle
  else .Stopped

/-- Every event that can hit the component: the four recorder callbacks and
the five user-triggered operations, each carrying the external outcomes it
consumes. -/
inductive Event where
  | recStart
  | recData (data : List Nat)
  | recStop (now : Nat)
  | recError
  | userStart (gum : Except String Unit) (supported : String → Bool)
  | userStop
  | userProcess (outcome : FetchOutcome)
  | userTest (chunkIndex : Nat) (outcome : DiagFetchOutcome)
  | userCleanup

/-- One step of the component: dispatch an event to its handler. -/
def step (s : ComponentState) : Event → ComponentState
  | .recStart => onstart s
  | .recData d => ondataavailable s d
  | .recStop now => onstop s now
  | .recError => onerror s
  | .userStart gum supported => startRecording s gum supported
  | .userStop => stopRecording s
  | .userProcess outcome => (processAudioChunks s outcome).1
  | .userTest i outcome => (testSingleChunk s i outcome).state
  | .userCleanup => cleanup s

/-- The state reached from the initial state by a list of events. -/
def run (events : List Event) : ComponentState :=
  events.foldl step initialState

/-- Folding a list of data-available emissions over a state. -/
def applyData (s : ComponentState) (emissions : List (List Nat)) : ComponentState :=
  emissions.foldl ondataavailable s

/-- An empty meeting record, used to build concrete response fixtures. -/
def sampleMom : Mom :=
  { meeting_info := { date := "", time := "", meeting_type := "" }
    attendance := { participants := [], total_participants := 0 }
    summary := { overview := "", detailed := "", key_topics := [] }
    action_items := []
    decisions := []
    follow_up := { next_meeting := "", pending_items := [], required_approvals := [] }
    risks_and_blockers := [] }

/-- A successful response fixture with a non-empty transcript. -/
def sampleResult : EnhancedTranscriptionResult :=
  { transcript := "hello world", mom := sampleMom, processing_info := none }

/-- A successful response fixture whose transcript is empty. -/
def blankResult : EnhancedTranscriptionResult :=
  { transcript := "", mom := sampleMom, processing_info := none }

/-- A published chunk above the 1000-byte minimum. -/
def bigChunk : AudioChunk :=
  { data := List.replicate 1500 7, timestamp := 0, index := 0, size := 1500 }

/-- A published chunk below the 1000-byte minimum. -/
def smallChunk : AudioChunk :=
  { data := List.replicate 200 7, timestamp := 0, index := 0, size := 200 }

/-- A session frozen after a stop: one published chunk, nothing else. -/
def stoppedState : ComponentState :=
  { initialState with audioChunks := [bigChunk] }

/-- A session that has completed a submission and still holds its chunk. -/
def completedState : ComponentState :=
  { initialState with transcription := some sampleResult, audioChunks := [bigChunk] }

/-- A session with a submission in flight. -/
def submittingState : ComponentState :=
  { initialState with isProcessing := true }

/-- A session in the middle of a recording: active stream, recorder in the
platform recording state, two segments already captured internally. -/
def recordingState : ComponentState :=
  { initialState with
      isRecording := true
      stream := true
      mediaRecorder := some { mimeType := "audio/wav", recState := .recording }
      recordedChunks := [[1, 2]] }

/-- The data-available handler never touches the exposed chunk list. -/
lemma ondataavailable_audioChunks (s : ComponentState) (d : List Nat) :
    (ondataavailable s d).audioChunks = s.audioChunks := by
  unfold ondataavailable; split <;> rfl

/-- The data-available handler never changes the derived session phase. -/
lemma ondataavailable_phase (s : ComponentState) (d : List Nat) :
    phase (ondataavailable s d) = phase s := by
  unfold ondataavailable; split <;> rfl

/-- The data-available handler never touches the error message. -/
lemma ondataavailable_error (s : ComponentState) (d : List Nat) :
    (ondataavailable s d).error = s.error := by
  unfold ondataavailable; split <;> rfl

/-- The data-available handler never touches the stored result. -/
lemma ondataavailable_transcription (s : ComponentState) (d : List Nat) :
    (ondataavailable s d).transcription = s.transcription := by
  unfold ondataavailable; split <;> rfl

/-- A sequence of data-available emissions never touches the exposed chunk
list. -/
lemma applyData_audioChunks (ds : List (List Nat)) (s : ComponentState) :
    (applyData s ds).audioChunks = s.audioChunks := by
  induction ds generalizing s with
  | nil => rfl
  | cons d ds ih =>
      rw [show applyData s (d :: ds) = applyData (ondataavailable s d) ds from rfl,
        ih, ondataavailable_audioChunks]

/-- A sequence of non-empty data-available emissions appends exactly those
segments, in order, to the internal segment buffer. -/
lemma applyData_recordedChunks (ds : List (List Nat)) (s : ComponentState)
    (h : ∀ d ∈ ds, d ≠ []) :
    (applyData s ds).recordedChunks = s.recordedChunks ++ ds := by
  induction ds generalizing s with
  | nil => simp [applyData]
  | cons d ds ih =>
      have hd : 0 < d.length := List.length_pos.mpr (h d (List.mem_cons_self d ds))
      rw [show applyData s (d :: ds) = applyData (ondataavailable s d) ds from rfl,
        ih (ondataavailable s d) (fun x hx => h x (List.mem_cons_of_mem d hx))]
      unfold ondataavailable
      rw [if_pos hd]
      simp

/-- The submit operation never touches the exposed chunk list. -/
lemma processAudioChunks_audioChunks (s : ComponentState) (o : FetchOutcome) :
    ((processAudioChunks s o).1).audioChunks = s.audioChunks := by
  unfold processAudioChunks
  rcases h : s.audioChunks with _ | ⟨c, rest⟩
  · rfl
  · dsimp only
    split
    · rfl
    · cases o with
      | networkError msg => rfl
      | jsonError msg => rfl
      | httpError status errorText parsed => rfl
      | success result => dsimp only; split <;> rfl

/-- The diagnostic single-chunk call returns the component state unchanged,
whatever the index and the outcome. -/
lemma testSingleChunk_state (s : ComponentState) (i : Nat) (o : DiagFetchOutcome) :
    (testSingleChunk s i o).state = s := by
  unfold testSingleChunk
  rcases h : s.audioChunks[i]? with _ | c
  · rfl
  · cases o <;> rfl

/-- Starting a recording never touches the exposed chunk list. -/
lemma startRecording_audioChunks (s : ComponentState) (gum : Except String Unit)
    (sup : String → Bool) :
    (startRecording s gum sup).audioChunks = s.audioChunks := by
  unfold startRecording initializeRecorder
  rcases hm : s.mediaRecorder with _ | r
  · rcases gum with msg | u
    · rfl
    · rcases hf : mimeTypes.find? sup with _ | m <;> simp [hf]
  · rcases hr : r.recState <;> simp [hm, hr]

/-- Stopping a recording never touches the exposed chunk list. -/
lemma stopRecording_audioChunks (s : ComponentState) :
    (stopRecording s).audioChunks = s.audioChunks := by
  unfold stopRecording
  rcases s.mediaRecorder with _ | r
  · rfl
  · dsimp only; split <;> rfl

/-- Every event preserves the bound of at most one exposed chunk. -/
lemma step_audioChunks_le (s : ComponentState) (e : Event)
    (h : s.audioChunks.length ≤ 1) : (step s e).audioChunks.length ≤ 1 := by
  cases e with
  | recStart => simp [step, onstart]
  | recData d =>
      show (ondataavailable s d).audioChunks.length ≤ 1
      rw [ondataavailable_audioChunks]; exact h
  | recStop now =>
      show (onstop s now).audioChunks.length ≤ 1
      unfold onstop
      dsimp only
      split
      · simp
      · exact h
  | recError => exact h
  | userStart gum sup =>
      show (startRecording s gum sup).audioChunks.length ≤ 1
      rw [startRecording_audioChunks]; exact h
  | userStop =>
      show (stopRecording s).audioChunks.length ≤ 1
      rw [stopRecording_audioChunks]; exact h
  | userProcess o =>
      show ((processAudioChunks s o).1).audioChunks.length ≤ 1
      rw [processAudioChunks_audioChunks]; exact h
  | userTest i o =>
      show ((testSingleChunk s i o).state).audioChunks.length ≤ 1
      rw [testSingleChunk_state]; exact h
  | userCleanup => simp [step, cleanup]

/-- The at-most-one-chunk bound is preserved along any event sequence. -/
lemma foldl_step_audioChunks_le (evs : List Event) (s : ComponentState)
    (h : s.audioChunks.length ≤ 1) :
    (evs.foldl step s).audioChunks.length ≤ 1 := by
  induction evs generalizing s with
  | nil => exact h
  | cons e evs ih => exact ih _ (step_audioChunks_le s e h)

/-- A session frozen after a stop whose single chunk is below the minimum. -/
def shortState : ComponentState :=
  { initialState with audioChunks := [smallChunk] }

/-- A session in the Failed phase with a leftover chunk. -/
def failedState : ComponentState :=
  { initialState with error := some "Recording error occurred", audioChunks := [smallChunk] }

/-- A 500 response carrying a structured `detail` field, exactly as in the
specification's example: body text `\x7b"detail": "model unavailable"\x7d`
and its `JSON.parse` result. -/
def c4Outcome : FetchOutcome :=
  .httpError 500 "\x7b\"detail\": \"model unavailable\"\x7d"
    (some { detail := some "model unavailable" })

/-- Stopping with a non-empty internal segment buffer publishes exactly one
chunk: the concatenation of the recorded segments, sequence index 0, size the
total byte length. -/
lemma onstop_of_recorded (s : ComponentState) (now : Nat)
    (h : s.recordedChunks ≠ []) :
    onstop s now =
      { s with isRecording := false,
               audioChunks := [{ data := s.recordedChunks.flatten, timestamp := now,
                                 index := 0, size := s.recordedChunks.flatten.length }] } := by
  have hl : 0 < s.recordedChunks.length := List.length_pos.mpr h
  unfold onstop
  simp [hl]

/-- Claim C1, counterexample: a Recording phase with N = 2 periodic emissions
followed by a stop leaves a chunk list of length 1, not 2, so the claimed
`sequenceIndex` range `0..N-1` cannot exist either. -/
theorem c1_counterexample :
    (run [Event.recStart, Event.recData [1], Event.recData [2], Event.recStop 5]).audioChunks.length = 1 ∧
    (run [Event.recStart, Event.recData [1], Event.recData [2], Event.recStop 5]).audioChunks.length ≠ 2 := by
  constructor <;> decide

/-- Claim C1, amended: during a Recording phase the exposed chunk list stays
empty; after the stop that follows N ≥ 1 non-empty periodic emissions it
holds exactly one chunk, of sequence index 0, whose data is the concatenation
of the emitted segments in capture order and whose size is their total byte
length. -/
theorem c1_single_chunk_after_stop (s : ComponentState) (ds : List (List Nat))
    (now : Nat) (hne : ds ≠ []) (hall : ∀ d ∈ ds, d ≠ []) :
    (applyData (onstart s) ds).audioChunks = [] ∧
    (onstop (applyData (onstart s) ds) now).audioChunks =
      [{ data := ds.flatten, timestamp := now, index := 0, size := ds.flatten.length }] := by
  have hrec : (applyData (onstart s) ds).recordedChunks = ds := by
    rw [applyData_recordedChunks ds (onstart s) hall]
    simp [onstart]
  refine ⟨by rw [applyData_audioChunks]; rfl, ?_⟩
  rw [onstop_of_recorded _ now (by rw [hrec]; exact hne)]
  simp [hrec]

/-- Claim C1 witness: the amended statement evaluated on the two-emission
trace. -/
theorem c1_witness :
    (([[1], [2]] : List (List Nat)) ≠ [] ∧ ∀ d ∈ ([[1], [2]] : List (List Nat)), d ≠ []) ∧
    (onstop (applyData (onstart initialState) [[1], [2]]) 9).audioChunks =
      [{ data := [1, 2], timestamp := 9, index := 0, size := 2 }] := by
  refine ⟨⟨by decide, by decide⟩, ?_⟩
  exact (c1_single_chunk_after_stop initialState [[1], [2]] 9 (by decide) (by decide)).2

/-- Claim C2: a 2xx response whose transcript is whitespace-only leaves the
session Failed with the no-speech guidance message, stores no result, and
never reaches Completed. -/
theorem c2_empty_transcript_fails (s : ComponentState) (c : AudioChunk)
    (rest : List AudioChunk) (r : EnhancedTranscriptionResult)
    (hchunks : s.audioChunks = c :: rest) (hsize : 1000 ≤ c.size)
    (hrec : s.isRecording = false) (hres : s.transcription = none)
    (htr : r.transcript = "" ∨ r.transcript.trim = "") :
    phase (processAudioChunks s (.success r)).1 = Phase.Failed ∧
    (processAudioChunks s (.success r)).1.transcription = none ∧
    (processAudioChunks s (.success r)).1.error =
      some "No speech was detected in the recording. Please try recording again and speak clearly." ∧
    phase (processAudioChunks s (.success r)).1 ≠ Phase.Completed := by
  have hf : (processAudioChunks s (.success r)).1 =
      { s with isProcessing := false,
               error := some "No speech was detected in the recording. Please try recording again and speak clearly." } := by
    unfold processAudioChunks
    rw [hchunks]
    dsimp only
    rw [if_neg (by omega)]
    dsimp only
    rw [if_pos htr]
  rw [hf]
  refine ⟨by simp [phase, hrec], by simpa using hres, rfl, by simp [phase, hrec]⟩

/-- Claim C2 witness: the empty-transcript outcome evaluated on a stopped
session with a large enough chunk. -/
theorem c2_witness :
    (stoppedState.audioChunks = [bigChunk] ∧ 1000 ≤ bigChunk.size ∧
      blankResult.transcript = "") ∧
    phase (processAudioChunks stoppedState (.success blankResult)).1 = Phase.Failed := by
  refine ⟨⟨rfl, by decide, rfl⟩, ?_⟩
  exact (c2_empty_transcript_fails stoppedState bigChunk [] blankResult rfl (by decide)
    rfl rfl (Or.inl rfl)).1

/-- Claim C3: with a first chunk below 1000 bytes, submit fails locally with
the too-short message, issues zero network calls, and changes nothing but the
error message and the in-flight flag. -/
theorem c3_too_short_no_network (s : ComponentState) (c : AudioChunk)
    (rest : List AudioChunk) (outcome : FetchOutcome)
    (hchunks : s.audioChunks = c :: rest) (hsize : c.size < 1000) :
    processAudioChunks s outcome =
      ({ s with isProcessing := false,
                error := some "Processing failed: Audio file too small. Please record for longer duration." },
       []) := by
  unfold processAudioChunks
  rw [hchunks]
  dsimp only
  rw [if_pos hsize]

/-- Claim C3 witness: the too-short rejection evaluated on a session holding
a 200-byte chunk. -/
theorem c3_witness :
    (shortState.audioChunks = [smallChunk] ∧ smallChunk.size < 1000) ∧
    processAudioChunks shortState (.networkError "x") =
      ({ shortState with isProcessing := false,
                         error := some "Processing failed: Audio file too small. Please record for longer duration." },
       []) := by
  refine ⟨⟨rfl, by decide⟩, ?_⟩
  exact c3_too_short_no_network shortState smallChunk [] (.networkError "x") rfl (by decide)

/-- Claim C4, counterexample: after a 500 response whose body is
`\x7b"detail": "model unavailable"\x7d`, the session is Failed but the error
message is not exactly "model unavailable". -/
theorem c4_counterexample :
    phase (processAudioChunks stoppedState c4Outcome).1 = Phase.Failed ∧
    (processAudioChunks stoppedState c4Outcome).1.error ≠ some "model unavailable" := by
  constructor <;> decide

/-- Claim C4, amended: after a 500 response whose parsed body carries
`detail = "model unavailable"`, the session is Failed and the error message
is exactly "Processing failed: HTTP 500: model unavailable" — the server
detail embedded in a prefixed message rather than used verbatim. -/
theorem c4_error_message_prefixed (s : ComponentState) (c : AudioChunk)
    (rest : List AudioChunk) (bodyText : String)
    (hchunks : s.audioChunks = c :: rest) (hsize : 1000 ≤ c.size)
    (hrec : s.isRecording = false) :
    (processAudioChunks s
        (.httpError 500 bodyText (some { detail := some "model unavailable" }))).1.error =
      some "Processing failed: HTTP 500: model unavailable" ∧
    phase (processAudioChunks s
        (.httpError 500 bodyText (some { detail := some "model unavailable" }))).1 =
      Phase.Failed := by
  have hf : (processAudioChunks s
      (.httpError 500 bodyText (some { detail := some "model unavailable" }))).1 =
      { s with isProcessing := false,
               error := some "Processing failed: HTTP 500: model unavailable" } := by
    unfold processAudioChunks
    rw [hchunks]
    dsimp only
    rw [if_neg (by omega)]
    dsimp only
    rw [if_neg (by decide : ¬ ("model unavailable" : String) = "")]
    rfl
  rw [hf]
  exact ⟨rfl, by simp [phase, hrec]⟩

/-- Claim C4 witness: the amended message equality evaluated on a stopped
session and the specification's example body. -/
theorem c4_witness :
    (stoppedState.audioChunks = [bigChunk] ∧ 1000 ≤ bigChunk.size) ∧
    (processAudioChunks stoppedState c4Outcome).1.error =
      some "Processing failed: HTTP 500: model unavailable" := by
  refine ⟨⟨rfl, by decide⟩, ?_⟩
  exact (c4_error_message_prefixed stoppedState bigChunk []
    "\x7b\"detail\": \"model unavailable\"\x7d" rfl (by decide) rfl).1

/-- Claim C5, counterexample: reset from a state with a submission in flight
does not yield Idle, because `cleanup` never clears the in-flight flag. -/
theorem c5_counterexample :
    phase (cleanup submittingState) ≠ Phase.Idle ∧
    phase (cleanup submittingState) = Phase.Submitting := by
  constructor <;> decide

/-- Claim C5, amended: reset always empties the chunk list and clears the
error and the result, and is idempotent; the resulting phase is Idle from
every state with no submission in flight. -/
theorem c5_cleanup_resets (s : ComponentState) :
    (cleanup s).audioChunks = [] ∧ (cleanup s).error = none ∧
    (cleanup s).transcription = none ∧ cleanup (cleanup s) = cleanup s ∧
    (s.isProcessing = false → phase (cleanup s) = Phase.Idle) := by
  refine ⟨rfl, rfl, rfl, rfl, fun h => ?_⟩
  simp [cleanup, phase, h]

/-- Claim C5 witness: reset evaluated on a Failed session with a leftover
chunk. -/
theorem c5_witness :
    failedState.isProcessing = false ∧ phase (cleanup failedState) = Phase.Idle :=
  ⟨rfl, (c5_cleanup_resets failedState).2.2.2.2 rfl⟩

/-- Claim C6, counterexample: submit invoked from the Completed phase (the
chunk list is still populated there) proceeds and issues a network call, so
it is not guarded on the Stopped phase. -/
theorem c6_counterexample :
    phase completedState = Phase.Completed ∧
    (processAudioChunks completedState (.networkError "Failed to fetch")).2 ≠ [] := by
  constructor <;> decide

/-- Claim C6, amended: submit is guarded only on the chunk list, not on the
session phase: with an empty chunk list it fails with the
NothingToSubmit-class message — which does mutate the error message — and
with a non-empty list whose first chunk meets the minimum size it issues
exactly one network call from any phase. -/
theorem c6_submit_guard (s : ComponentState) (outcome : FetchOutcome) :
    (s.audioChunks = [] →
      processAudioChunks s outcome =
        ({ s with error := some "No audio chunks to process" }, [])) ∧
    (∀ (c : AudioChunk) (rest : List AudioChunk),
      s.audioChunks = c :: rest → 1000 ≤ c.size →
      (processAudioChunks s outcome).2 =
        [{ endpoint := "/live-speech-to-text/live-chunks", payload := c.data,
           filename := "complete_recording.webm" }]) := by
  constructor
  · intro h
    unfold processAudioChunks
    rw [h]
  · intro c rest h hsize
    unfold processAudioChunks
    rw [h]
    dsimp only
    rw [if_neg (by omega)]

/-- Claim C6 witness: both halves of the amended guard, evaluated on the
empty initial session and on a Completed session. -/
theorem c6_witness :
    (initialState.audioChunks = [] ∧
      processAudioChunks initialState (.networkError "x") =
        ({ initialState with error := some "No audio chunks to process" }, [])) ∧
    (completedState.audioChunks = [bigChunk] ∧ 1000 ≤ bigChunk.size ∧
      (processAudioChunks completedState (.networkError "x")).2 =
        [{ endpoint := "/live-speech-to-text/live-chunks", payload := bigChunk.data,
           filename := "complete_recording.webm" }]) := by
  refine ⟨⟨rfl, (c6_submit_guard initialState (.networkError "x")).1 rfl⟩,
    ⟨rfl, by decide, ?_⟩⟩
  exact (c6_submit_guard completedState (.networkError "x")).2 bigChunk [] rfl (by decide)

/-- Claim C7, counterexample: a second `startRecording` during an active
recording leaves the chunk list alone but does write the failed-to-start
error message, so the session is not left untouched — and the rejection comes
from the platform recorder, the operation itself has no phase guard. -/
theorem c7_counterexample :
    phase recordingState = Phase.Recording ∧ recordingState.error = none ∧
    (startRecording recordingState (Except.ok ()) (fun _ => true)).error =
      some "Failed to start recording" := by
  refine ⟨by decide, rfl, by decide⟩

/-- Claim C7, amended: calling `startRecording` while the platform recorder
is already recording starts nothing new and leaves the chunk list, the
recording flag and the recorder untouched, but sets the error message to
"Failed to start recording"; the rejection is the platform `start()` throwing
rather than a state-machine guard in the operation. -/
theorem c7_start_while_recording (s : ComponentState) (gum : Except String Unit)
    (supported : String → Bool) (r : MediaRecorderHandle)
    (hm : s.mediaRecorder = some r) (hr : r.recState = RecState.recording) :
    startRecording s gum supported = { s with error := some "Failed to start recording" } := by
  simp [startRecording, hm, hr]

/-- Claim C7 witness: the amended statement evaluated on the concrete
mid-recording session. -/
theorem c7_witness :
    recordingState.mediaRecorder =
      some { mimeType := "audio/wav", recState := RecState.recording } ∧
    startRecording recordingState (Except.ok ()) (fun _ => true) =
      { recordingState with error := some "Failed to start recording" } :=
  ⟨rfl, c7_start_while_recording recordingState (Except.ok ()) (fun _ => true)
    { mimeType := "audio/wav", recState := RecState.recording } rfl rfl⟩

/-- Claim C8: a data-available callback that fires once the device handle is
released (and the session is no longer recording) leaves every exposed
observable — chunk list, error message, result and derived phase — exactly as
it was. -/
theorem c8_late_data_no_effect (s : ComponentState) (data : List Nat)
    (_hstream : s.stream = false) (_hrec : s.isRecording = false) :
    (ondataavailable s data).audioChunks = s.audioChunks ∧
    (ondataavailable s data).error = s.error ∧
    (ondataavailable s data).transcription = s.transcription ∧
    phase (ondataavailable s data) = phase s :=
  ⟨ondataavailable_audioChunks s data, ondataavailable_error s data,
   ondataavailable_transcription s data, ondataavailable_phase s data⟩

/-- Claim C8 witness: a late emission against the stopped session. -/
theorem c8_witness :
    (stoppedState.stream = false ∧ stoppedState.isRecording = false) ∧
    (ondataavailable stoppedState [9, 9]).audioChunks = stoppedState.audioChunks :=
  ⟨⟨rfl, rfl⟩, (c8_late_data_no_effect stoppedState [9, 9] rfl rfl).1⟩

/-- Claim C9: the diagnostic single-chunk submission returns the component
state unchanged for every chunk index and every outcome — success, HTTP
error, bad JSON or network failure — reporting only through its local
alert. -/
theorem c9_diagnostic_state_frame (s : ComponentState) (chunkIndex : Nat)
    (outcome : DiagFetchOutcome) :
    (testSingleChunk s chunkIndex outcome).state = s :=
  testSingleChunk_state s chunkIndex outcome

/-- Claim C10: the exposed chunk list never holds more than one element along
any event sequence from the initial state; it is empty throughout a recording
phase (from the start callback through any emissions); and a stop that
captured data publishes exactly one chunk of sequence index 0 whose data is
the concatenation of the internally recorded segments in capture order and
whose size is its byte length. -/
theorem c10_chunk_list_invariant :
    (∀ evs : List Event, (run evs).audioChunks.length ≤ 1) ∧
    (∀ (s : ComponentState) (ds : List (List Nat)),
        (applyData (onstart s) ds).audioChunks = []) ∧
    (∀ (s : ComponentState) (now : Nat), s.recordedChunks ≠ [] →
        (onstop s now).audioChunks =
          [{ data := s.recordedChunks.flatten, timestamp := now, index := 0,
             size := s.recordedChunks.flatten.length }]) := by
  refine ⟨fun evs => ?_, fun s ds => ?_, fun s now h => ?_⟩
  · exact foldl_step_audioChunks_le evs initialState (by decide)
  · rw [applyData_audioChunks]; rfl
  · rw [onstop_of_recorded s now h]

/-- Claim C10 witness: the invariant and the stop shape evaluated on concrete
states. -/
theorem c10_witness :
    (run [Event.recStart, Event.recData [3, 4], Event.recStop 1]).audioChunks.length ≤ 1 ∧
    recordingState.recordedChunks ≠ [] ∧
    (onstop recordingState 2).audioChunks =
      [{ data := [1, 2], timestamp := 2, index := 0, size := 2 }] := by
  refine ⟨c10_chunk_list_invariant.1 _, by decide, ?_⟩
  exact c10_chunk_list_invariant.2.2 recordingState 2 (by decide)

end LiveSpeechToText
